import Mathlib

/-!
Verification of the claude-todoist-api relay service.

The repository contains several superseding drafts of the same modules.
We embed the drafts the claims cite:
  * the primary service draft `src/services/todoist.service.ts`
    (schemas `TaskSchema`, `ProjectSchema`; methods `makeRequest`,
    `healthCheck`, `getTasks`, `createTask`), called `Main` below;
  * the first draft inside `part_002` (schemas with `CreateTaskSchema`,
    `UpdateTaskSchema`, the schema-lenient `makeRequest`, `getAccountInfo`,
    the boolean `healthCheck`), called `V1` below;
  * the second draft inside `part_002` (the `makeRequest` that wraps
    transport failures into `TodoistApiError`), called `V2` below;
  * the Express task routes in `part_004` and the MCP tool handlers in
    `src/server/mcp-server.ts`.

JSON values are embedded with an inductive type; zod object schemas are
embedded as issue-collecting validators (zod collects one issue per failing
key, in key declaration order, and strips unknown keys).  JSON numbers are
modelled as integers; every value the claims exercise is integral.
-/

namespace Todoist

/-- A JSON value as delivered by the upstream API.  Object fields keep
their textual keys; a missing key is represented by absence from the
field list, while an explicit `null` is the `Json.null` value. -/
inductive Json where
  | null : Json
  | bool (b : Bool) : Json
  | num (n : Int) : Json
  | str (s : String) : Json
  | arr (items : List Json) : Json
  | obj (fields : List (String × Json)) : Json
deriving Repr

/-- A zod validation issue, reduced to the path of the failing field
(zod additionally carries a message, which no claim inspects). -/
abbrev Issues := List (List String)

/-- Errors a service call can surface, mirroring the JavaScript error
values the drafts throw: a raw transport rejection from `fetch`, a plain
`new Error(...)`, a `TodoistApiError (message, status, code)`, and a
`z.ZodError` carrying its issues. -/
inductive JsError where
  | transport (msg : String) : JsError
  | generic (msg : String) : JsError
  | todoistApi (msg : String) (status : Int) (code : Option String) : JsError
  | zod (issues : Issues) : JsError
deriving Repr, DecidableEq

/-- True exactly for the `TodoistApiError` variant. -/
def JsError.isApi : JsError → Bool
  | .todoistApi _ _ _ => true
  | _ => false

/-- True for the error constructor of `Except`. -/
def exceptErr {ε α : Type} : Except ε α → Bool
  | .error _ => true
  | .ok _ => false

/-- True for the ok constructor of `Except`. -/
def exceptOk {ε α : Type} : Except ε α → Bool
  | .ok _ => true
  | .error _ => false

/-- Issues of `z.string()` on a required key. -/
def reqStrIssues (f : List (String × Json)) (k : String) : Issues :=
  match f.lookup k with
  | some (Json.str _) => []
  | _ => [[k]]

/-- Issues of `z.string().min(1)` on a required key. -/
def reqNonEmptyStrIssues (f : List (String × Json)) (k : String) : Issues :=
  match f.lookup k with
  | some (Json.str s) => if s.isEmpty then [[k]] else []
  | _ => [[k]]

/-- Issues of `z.boolean()` on a required key. -/
def reqBoolIssues (f : List (String × Json)) (k : String) : Issues :=
  match f.lookup k with
  | some (Json.bool _) => []
  | _ => [[k]]

/-- Issues of `z.number()` on a required key. -/
def reqNumIssues (f : List (String × Json)) (k : String) : Issues :=
  match f.lookup k with
  | some (Json.num _) => []
  | _ => [[k]]

/-- True for a JSON string value. -/
def Json.isStr : Json → Bool
  | .str _ => true
  | _ => false

/-- Issues of `z.array(z.string())` on a required key. -/
def reqStrListIssues (f : List (String × Json)) (k : String) : Issues :=
  match f.lookup k with
  | some (Json.arr xs) => if xs.all Json.isStr then [] else [[k]]
  | _ => [[k]]

/-- Issues of `z.string().nullable()` on a required key. -/
def nullableStrIssues (f : List (String × Json)) (k : String) : Issues :=
  match f.lookup k with
  | some Json.null => []
  | some (Json.str _) => []
  | _ => [[k]]

/-- Issues of `z.string().optional()`: an absent key validates, a present
key must be a string — in particular an explicit `null` fails. -/
def optStrIssues (f : List (String × Json)) (k : String) : Issues :=
  match f.lookup k with
  | none => []
  | some (Json.str _) => []
  | some _ => [[k]]

/-- Issues of `z.string().nullable().optional()`: absent, `null` and
string values all validate. -/
def optNullableStrIssues (f : List (String × Json)) (k : String) : Issues :=
  match f.lookup k with
  | none => []
  | some Json.null => []
  | some (Json.str _) => []
  | some _ => [[k]]

/-- Issues of `z.number().optional()`. -/
def optNumIssues (f : List (String × Json)) (k : String) : Issues :=
  match f.lookup k with
  | none => []
  | some (Json.num _) => []
  | some _ => [[k]]

/-- Issues of `z.array(z.string()).optional()`. -/
def optStrListIssues (f : List (String × Json)) (k : String) : Issues :=
  match f.lookup k with
  | none => []
  | some (Json.arr xs) => if xs.all Json.isStr then [] else [[k]]
  | some _ => [[k]]

/-- Issues of `z.number().min(1).max(4)` on a required key
(the `priority` of the `V1` task schema). -/
def reqPriorityIssues (f : List (String × Json)) (k : String) : Issues :=
  match f.lookup k with
  | some (Json.num n) => if 1 ≤ n ∧ n ≤ 4 then [] else [[k]]
  | _ => [[k]]

/-- Issues of `z.number().min(1).max(4).optional()` (the `priority` of
`CreateTaskSchema` and `UpdateTaskSchema`). -/
def optPriorityIssues (f : List (String × Json)) (k : String) : Issues :=
  match f.lookup k with
  | none => []
  | some (Json.num n) => if 1 ≤ n ∧ n ≤ 4 then [] else [[k]]
  | some _ => [[k]]

/-- Extract a required string (callers only rely on the value when the
corresponding issue check came back empty). -/
def getStr (f : List (String × Json)) (k : String) : String :=
  match f.lookup k with
  | some (Json.str s) => s
  | _ => ""

/-- Extract a required boolean. -/
def getBool (f : List (String × Json)) (k : String) : Bool :=
  match f.lookup k with
  | some (Json.bool b) => b
  | _ => false

/-- Extract a required number. -/
def getNum (f : List (String × Json)) (k : String) : Int :=
  match f.lookup k with
  | some (Json.num n) => n
  | _ => 0

/-- Extract a required string array. -/
def getStrList (f : List (String × Json)) (k : String) : List String :=
  match f.lookup k with
  | some (Json.arr xs) => xs.filterMap (fun j => match j with
      | Json.str s => some s
      | _ => none)
  | _ => []

/-- Extract a nullable string: `null` becomes `none`. -/
def getNullableStr (f : List (String × Json)) (k : String) : Option String :=
  match f.lookup k with
  | some (Json.str s) => some s
  | _ => none

/-- Extract an optional string: an absent key becomes `none`. -/
def getOptStr (f : List (String × Json)) (k : String) : Option String :=
  match f.lookup k with
  | some (Json.str s) => some s
  | _ => none

/-- Extract an optional nullable string.  The parsed output keeps the two
upstream shapes apart, exactly as zod does: an absent key stays absent
(`none`) while an explicit `null` stays `null` (`some none`). -/
def getOptNullableStr (f : List (String × Json)) (k : String) :
    Option (Option String) :=
  match f.lookup k with
  | none => none
  | some Json.null => some none
  | some (Json.str s) => some (some s)
  | some _ => none

/-- Extract an optional number. -/
def getOptNum (f : List (String × Json)) (k : String) : Option Int :=
  match f.lookup k with
  | some (Json.num n) => some n
  | _ => none

/-- Extract an optional string array. -/
def getOptStrList (f : List (String × Json)) (k : String) :
    Option (List String) :=
  match f.lookup k with
  | some (Json.arr xs) => some (xs.filterMap (fun j => match j with
      | Json.str s => some s
      | _ => none))
  | _ => none

/-- The `due` sub-record of the primary draft task schema: `date`,
`string`, `lang` and `is_recurring` are required; `datetime` and
`timezone` are `z.string().optional()` — they may be absent, but an
explicit `null` is rejected. -/
structure DueMain where
  date : String
  string : String
  lang : String
  is_recurring : Bool
  datetime : Option String
  timezone : Option String
deriving Repr, DecidableEq

/-- Issue collection for the primary draft `due` object, key by key in
declaration order. -/
def dueMainIssues (j : Json) : Issues :=
  match j with
  | Json.obj f =>
      reqStrIssues f ("date") ++ reqStrIssues f ("string") ++
      reqStrIssues f ("lang") ++ reqBoolIssues f ("is_recurring") ++
      optStrIssues f ("datetime") ++ optStrIssues f ("timezone")
  | _ => [[]]

/-- Value extraction for the primary draft `due` object. -/
def extractDueMain (j : Json) : DueMain :=
  match j with
  | Json.obj f =>
      ⟨getStr f ("date"), getStr f ("string"), getStr f ("lang"),
       getBool f ("is_recurring"), getOptStr f ("datetime"),
       getOptStr f ("timezone")⟩
  | _ => ⟨"", "", "", false, none, none⟩

/-- `TaskSchema.due` of the primary draft applied to one non-null `due`
payload. -/
def parseDueMain (j : Json) : Except Issues DueMain :=
  if dueMainIssues j = [] then Except.ok (extractDueMain j)
  else Except.error (dueMainIssues j)

/-- The `due` sub-record of the first `part_002` draft: `datetime` and
`timezone` are `z.string().nullable().optional()` and `lang` is
`z.string().optional()`.  `Option (Option String)` keeps absence
(`none`) apart from an explicit `null` (`some none`), as zod does. -/
structure DueV1 where
  date : String
  is_recurring : Bool
  datetime : Option (Option String)
  string : String
  timezone : Option (Option String)
  lang : Option String
deriving Repr, DecidableEq

/-- Issue collection for the `V1` `due` object, in declaration order. -/
def dueV1Issues (j : Json) : Issues :=
  match j with
  | Json.obj f =>
      reqStrIssues f ("date") ++ reqBoolIssues f ("is_recurring") ++
      optNullableStrIssues f ("datetime") ++ reqStrIssues f ("string") ++
      optNullableStrIssues f ("timezone") ++ optStrIssues f ("lang")
  | _ => [[]]

/-- Value extraction for the `V1` `due` object. -/
def extractDueV1 (j : Json) : DueV1 :=
  match j with
  | Json.obj f =>
      ⟨getStr f ("date"), getBool f ("is_recurring"),
       getOptNullableStr f ("datetime"), getStr f ("string"),
       getOptNullableStr f ("timezone"), getOptStr f ("lang")⟩
  | _ => ⟨"", false, none, "", none, none⟩

/-- `TaskSchema.due` of the first `part_002` draft applied to one
non-null `due` payload. -/
def parseDueV1 (j : Json) : Except Issues DueV1 :=
  if dueV1Issues j = [] then Except.ok (extractDueV1 j)
  else Except.error (dueV1Issues j)

/-- A task as validated by the primary draft `TaskSchema`.  `description`
is required there; `priority` is a plain `z.number()` with no range;
`duration` and `deadline` are `z.unknown().nullable()` and therefore
accept any value, kept as the raw JSON (`none` when the key is absent). -/
structure TaskMain where
  id : String
  content : String
  description : String
  is_completed : Bool
  labels : List String
  order : Int
  priority : Int
  project_id : String
  section_id : Option String
  parent_id : Option String
  creator_id : String
  created_at : String
  assignee_id : Option String
  assigner_id : Option String
  comment_count : Int
  url : String
  due : Option DueMain
  duration : Option Json
  deadline : Option Json
deriving Repr

/-- Issues of the primary draft `due` field: required but nullable. -/
def dueMainFieldIssues (f : List (String × Json)) : Issues :=
  match f.lookup ("due") with
  | none => [[("due")]]
  | some Json.null => []
  | some v => (dueMainIssues v).map (fun p => ("due") :: p)

/-- Issue collection for the primary draft `TaskSchema`, key by key in
declaration order. -/
def taskMainIssues (f : List (String × Json)) : Issues :=
  reqStrIssues f ("id") ++ reqStrIssues f ("content") ++
  reqStrIssues f ("description") ++ reqBoolIssues f ("is_completed") ++
  reqStrListIssues f ("labels") ++ reqNumIssues f ("order") ++
  reqNumIssues f ("priority") ++ reqStrIssues f ("project_id") ++
  nullableStrIssues f ("section_id") ++ nullableStrIssues f ("parent_id") ++
  reqStrIssues f ("creator_id") ++ reqStrIssues f ("created_at") ++
  nullableStrIssues f ("assignee_id") ++ nullableStrIssues f ("assigner_id") ++
  reqNumIssues f ("comment_count") ++ reqStrIssues f ("url") ++
  dueMainFieldIssues f

/-- Extract the nullable `due` value. -/
def getDueMain (f : List (String × Json)) : Option DueMain :=
  match f.lookup ("due") with
  | some Json.null => none
  | some v => some (extractDueMain v)
  | none => none

/-- Value extraction for the primary draft `TaskSchema`. -/
def extractTaskMain (f : List (String × Json)) : TaskMain :=
  ⟨getStr f ("id"), getStr f ("content"), getStr f ("description"),
   getBool f ("is_completed"), getStrList f ("labels"), getNum f ("order"),
   getNum f ("priority"), getStr f ("project_id"),
   getNullableStr f ("section_id"), getNullableStr f ("parent_id"),
   getStr f ("creator_id"), getStr f ("created_at"),
   getNullableStr f ("assignee_id"), getNullableStr f ("assigner_id"),
   getNum f ("comment_count"), getStr f ("url"), getDueMain f,
   f.lookup ("duration"), f.lookup ("deadline")⟩

/-- `TaskSchema.parse` of the primary draft on a single payload. -/
def parseTaskMain (j : Json) : Except Issues TaskMain :=
  match j with
  | Json.obj f =>
      if taskMainIssues f = [] then Except.ok (extractTaskMain f)
      else Except.error (taskMainIssues f)
  | _ => Except.error [[]]

/-- A task as validated by the first `part_002` draft `TaskSchema`:
`description` optional, `priority` ranged 1–4, `due` per `DueV1`,
`duration` and `deadline` `z.any().nullable().optional()`. -/
structure TaskV1 where
  id : String
  content : String
  description : Option String
  is_completed : Bool
  labels : List String
  order : Int
  priority : Int
  project_id : String
  section_id : Option String
  parent_id : Option String
  url : String
  comment_count : Int
  assignee_id : Option String
  assigner_id : Option String
  creator_id : String
  created_at : String
  due : Option DueV1
  duration : Option Json
  deadline : Option Json
deriving Repr

/-- Issues of the `V1` `due` field: required but nullable. -/
def dueV1FieldIssues (f : List (String × Json)) : Issues :=
  match f.lookup ("due") with
  | none => [[("due")]]
  | some Json.null => []
  | some v => (dueV1Issues v).map (fun p => ("due") :: p)

/-- Issue collection for the `V1` `TaskSchema`, in declaration order. -/
def taskV1Issues (f : List (String × Json)) : Issues :=
  reqStrIssues f ("id") ++ reqStrIssues f ("content") ++
  optStrIssues f ("description") ++ reqBoolIssues f ("is_completed") ++
  reqStrListIssues f ("labels") ++ reqNumIssues f ("order") ++
  reqPriorityIssues f ("priority") ++ reqStrIssues f ("project_id") ++
  nullableStrIssues f ("section_id") ++ nullableStrIssues f ("parent_id") ++
  reqStrIssues f ("url") ++ reqNumIssues f ("comment_count") ++
  nullableStrIssues f ("assignee_id") ++ nullableStrIssues f ("assigner_id") ++
  reqStrIssues f ("creator_id") ++ reqStrIssues f ("created_at") ++
  dueV1FieldIssues f

/-- Extract the nullable `V1` `due` value. -/
def getDueV1 (f : List (String × Json)) : Option DueV1 :=
  match f.lookup ("due") with
  | some Json.null => none
  | some v => some (extractDueV1 v)
  | none => none

/-- Value extraction for the `V1` `TaskSchema`. -/
def extractTaskV1 (f : List (String × Json)) : TaskV1 :=
  ⟨getStr f ("id"), getStr f ("content"), getOptStr f ("description"),
   getBool f ("is_completed"), getStrList f ("labels"), getNum f ("order"),
   getNum f ("priority"), getStr f ("project_id"),
   getNullableStr f ("section_id"), getNullableStr f ("parent_id"),
   getStr f ("url"), getNum f ("comment_count"),
   getNullableStr f ("assignee_id"), getNullableStr f ("assigner_id"),
   getStr f ("creator_id"), getStr f ("created_at"), getDueV1 f,
   f.lookup ("duration"), f.lookup ("deadline")⟩

/-- The field list of a JSON object (empty for any other value). -/
def jFields (j : Json) : List (String × Json) :=
  match j with
  | Json.obj f => f
  | _ => []

/-- `TaskSchema.parse` of the `V1` draft on a single payload. -/
def parseTaskV1 (j : Json) : Except Issues TaskV1 :=
  match j with
  | Json.obj f =>
      if taskV1Issues f = [] then Except.ok (extractTaskV1 f)
      else Except.error (taskV1Issues f)
  | _ => Except.error [[]]

/-- Issues of the `V1` `TaskSchema` at an arbitrary payload. -/
def taskV1IssuesAt (j : Json) : Issues :=
  match j with
  | Json.obj f => taskV1Issues f
  | _ => [[]]

/-- Issue collection for `z.array(TaskSchema)` of the `V1` draft: each
item's issues, prefixed with the item index. -/
def taskArrayV1Issues (items : List Json) : Issues :=
  (items.enum.map (fun p =>
    (taskV1IssuesAt p.2).map (fun path => (toString p.1) :: path))).flatten

/-- `z.array(TaskSchema).parse` of the `V1` draft. -/
def parseTaskArrayV1 (j : Json) : Except Issues (List TaskV1) :=
  match j with
  | Json.arr items =>
      if taskArrayV1Issues items = [] then
        Except.ok (items.map (fun it => extractTaskV1 (jFields it)))
      else Except.error (taskArrayV1Issues items)
  | _ => Except.error [[]]

/-- A project as validated by the primary draft `ProjectSchema`
(which requires a `description`). -/
structure ProjectMain where
  id : String
  name : String
  comment_count : Int
  order : Int
  color : String
  is_shared : Bool
  is_favorite : Bool
  is_inbox_project : Bool
  is_team_inbox : Bool
  view_style : String
  url : String
  parent_id : Option String
  description : String
deriving Repr, DecidableEq

/-- A project as validated by the `V1` `ProjectSchema`
(no `description` field). -/
structure ProjectV1 where
  id : String
  name : String
  comment_count : Int
  order : Int
  color : String
  is_shared : Bool
  is_favorite : Bool
  is_inbox_project : Bool
  is_team_inbox : Bool
  view_style : String
  url : String
  parent_id : Option String
deriving Repr, DecidableEq

/-- The outcome of one `fetch` call: either the promise rejects with a
transport-level failure (DNS, connection refused, timeout), or a response
arrives with an HTTP status, a status text and a JSON body. -/
inductive FetchOutcome where
  | transportError (msg : String) : FetchOutcome
  | response (status : Int) (statusText : String) (body : Json) : FetchOutcome
deriving Repr

/-- One HTTP request issued against the upstream API. -/
structure Request where
  method : String
  path : String
  body : Option Json
deriving Repr

/-- An upstream stub: what `fetch` yields for each request. -/
abbrev Upstream := Request → FetchOutcome

/-- Key lookup on a JSON object value. -/
def Json.getKey (j : Json) (k : String) : Option Json :=
  match j with
  | Json.obj f => f.lookup k
  | _ => none

/-- `makeRequest` of the primary draft: no try/catch, so a transport
rejection propagates raw; a non-ok status throws a plain
`new Error('Todoist API error: status statusText')`. -/
def makeRequestMain (f : FetchOutcome) : Except JsError Json :=
  match f with
  | FetchOutcome.transportError msg => Except.error (JsError.transport msg)
  | FetchOutcome.response status statusText body =>
      if 200 ≤ status ∧ status < 300 then Except.ok body
      else Except.error (JsError.generic
        (("Todoist API error: ") ++ toString status ++ (" ") ++ statusText))

/-- The value a schema-validated `V1` call yields at runtime: either the
zod-parsed value, or — when response validation failed — the raw,
unvalidated JSON payload substituted by the lenient policy. -/
inductive ParseOrRaw (α : Type) where
  | parsed (value : α) : ParseOrRaw α
  | raw (payload : Json) : ParseOrRaw α
deriving Repr

/-- `makeRequest` of the first `part_002` draft, with a response schema:
a non-ok status throws `TodoistApiError`; when the schema rejects the
body, one warning is logged and the raw body is returned instead of
failing; the catch block rethrows whatever was thrown, so a transport
rejection still propagates raw.  The second component counts the
warn-level log lines the call emitted. -/
def makeRequestV1 {α : Type} (f : FetchOutcome)
    (schema : Json → Except Issues α) :
    Except JsError (ParseOrRaw α) × Nat :=
  match f with
  | FetchOutcome.transportError msg => (Except.error (JsError.transport msg), 0)
  | FetchOutcome.response status statusText body =>
      if 200 ≤ status ∧ status < 300 then
        match schema body with
        | Except.ok a => (Except.ok (ParseOrRaw.parsed a), 0)
        | Except.error _ => (Except.ok (ParseOrRaw.raw body), 1)
      else
        (Except.error (JsError.todoistApi (("Todoist API error: ") ++ statusText)
          status (match Json.getKey body ("error_code") with
            | some (Json.str c) => some c
            | _ => none)), 0)

/-- `makeRequest` of the second `part_002` draft: a non-ok status throws
`TodoistApiError (status, status.toString)`; the catch block rethrows a
`TodoistApiError` unchanged and wraps any other failure — in particular a
transport rejection — into
`TodoistApiError ('Network error: ...', 0, 'NETWORK_ERROR')`. -/
def makeRequestV2 (f : FetchOutcome) : Except JsError Json :=
  match f with
  | FetchOutcome.transportError msg =>
      Except.error (JsError.todoistApi (("Network error: ") ++ msg) 0
        (some ("NETWORK_ERROR")))
  | FetchOutcome.response status statusText body =>
      if 200 ≤ status ∧ status < 300 then Except.ok body
      else Except.error (JsError.todoistApi
        (("API request failed: ") ++ statusText) status (some (toString status)))

/-- The item-by-item validation loop of the primary draft `getTasks`:
`data.map` re-parses every item and the wrapper throws a plain `Error`
at the first item `TaskSchema.parse` rejects, failing the whole call. -/
def getTasksMainList : List Json → Except JsError (List TaskMain)
  | [] => Except.ok []
  | j :: rest =>
      match parseTaskMain j with
      | Except.error _ => Except.error (JsError.generic ("Task validation failed"))
      | Except.ok t =>
          match getTasksMainList rest with
          | Except.ok ts => Except.ok (t :: ts)
          | Except.error e => Except.error e

/-- `getTasks` of the first `part_002` draft applied to the upstream
response: `makeRequest` with the `z.array(TaskSchema)` response schema. -/
def getTasksV1 (f : FetchOutcome) :
    Except JsError (ParseOrRaw (List TaskV1)) × Nat :=
  makeRequestV1 f parseTaskArrayV1

/-- The strict create/update input type of `CreateTaskSchema`
(first `part_002` draft). -/
structure CreateTaskInput where
  content : String
  description : Option String
  project_id : Option String
  section_id : Option String
  parent_id : Option String
  order : Option Int
  labels : Option (List String)
  priority : Option Int
  due_string : Option String
  due_date : Option String
  due_datetime : Option String
  due_lang : Option String
  assignee_id : Option String
deriving Repr, DecidableEq

/-- The input type of `UpdateTaskSchema = CreateTaskSchema.partial()`:
every field optional, the per-field checks unchanged. -/
structure UpdateTaskInput where
  content : Option String
  description : Option String
  project_id : Option String
  section_id : Option String
  parent_id : Option String
  order : Option Int
  labels : Option (List String)
  priority : Option Int
  due_string : Option String
  due_date : Option String
  due_datetime : Option String
  due_lang : Option String
  assignee_id : Option String
deriving Repr, DecidableEq

/-- Issue collection for `CreateTaskSchema`, in declaration order. -/
def createTaskIssues (f : List (String × Json)) : Issues :=
  reqNonEmptyStrIssues f ("content") ++ optStrIssues f ("description") ++
  optStrIssues f ("project_id") ++ optStrIssues f ("section_id") ++
  optStrIssues f ("parent_id") ++ optNumIssues f ("order") ++
  optStrListIssues f ("labels") ++ optPriorityIssues f ("priority") ++
  optStrIssues f ("due_string") ++ optStrIssues f ("due_date") ++
  optStrIssues f ("due_datetime") ++ optStrIssues f ("due_lang") ++
  optStrIssues f ("assignee_id")

/-- Issues of `z.string().min(1).optional()` (the `content` of the
partial update schema). -/
def optNonEmptyStrIssues (f : List (String × Json)) (k : String) : Issues :=
  match f.lookup k with
  | none => []
  | some (Json.str s) => if s.isEmpty then [[k]] else []
  | some _ => [[k]]

/-- Issue collection for `UpdateTaskSchema`, in declaration order. -/
def updateTaskIssues (f : List (String × Json)) : Issues :=
  optNonEmptyStrIssues f ("content") ++ optStrIssues f ("description") ++
  optStrIssues f ("project_id") ++ optStrIssues f ("section_id") ++
  optStrIssues f ("parent_id") ++ optNumIssues f ("order") ++
  optStrListIssues f ("labels") ++ optPriorityIssues f ("priority") ++
  optStrIssues f ("due_string") ++ optStrIssues f ("due_date") ++
  optStrIssues f ("due_datetime") ++ optStrIssues f ("due_lang") ++
  optStrIssues f ("assignee_id")

/-- `CreateTaskSchema.parse` on a raw input value. -/
def parseCreateTask (j : Json) : Except Issues CreateTaskInput :=
  match j with
  | Json.obj f =>
      if createTaskIssues f = [] then
        Except.ok ⟨getStr f ("content"), getOptStr f ("description"),
          getOptStr f ("project_id"), getOptStr f ("section_id"),
          getOptStr f ("parent_id"), getOptNum f ("order"),
          getOptStrList f ("labels"), getOptNum f ("priority"),
          getOptStr f ("due_string"), getOptStr f ("due_date"),
          getOptStr f ("due_datetime"), getOptStr f ("due_lang"),
          getOptStr f ("assignee_id")⟩
      else Except.error (createTaskIssues f)
  | _ => Except.error [[]]

/-- `UpdateTaskSchema.parse` on a raw input value. -/
def parseUpdateTask (j : Json) : Except Issues UpdateTaskInput :=
  match j with
  | Json.obj f =>
      if updateTaskIssues f = [] then
        Except.ok ⟨getOptStr f ("content"), getOptStr f ("description"),
          getOptStr f ("project_id"), getOptStr f ("section_id"),
          getOptStr f ("parent_id"), getOptNum f ("order"),
          getOptStrList f ("labels"), getOptNum f ("priority"),
          getOptStr f ("due_string"), getOptStr f ("due_date"),
          getOptStr f ("due_datetime"), getOptStr f ("due_lang"),
          getOptStr f ("assignee_id")⟩
      else Except.error (updateTaskIssues f)
  | _ => Except.error [[]]

/-- Emit one JSON object field when the value is present
(`JSON.stringify` omits keys holding `undefined`). -/
def optField (k : String) (v : Option Json) : List (String × Json) :=
  match v with
  | some j => [(k, j)]
  | none => []

/-- Map an optional string into an optional JSON value. -/
def optStrJson : Option String → Option Json
  | some s => some (Json.str s)
  | none => none

/-- `JSON.stringify` of a validated `CreateTaskInput` (the request body
`createTask` sends). -/
def encodeCreateTask (t : CreateTaskInput) : Json :=
  Json.obj ([(("content"), Json.str t.content)] ++
    optField ("description") (optStrJson t.description) ++
    optField ("project_id") (optStrJson t.project_id) ++
    optField ("section_id") (optStrJson t.section_id) ++
    optField ("parent_id") (optStrJson t.parent_id) ++
    optField ("order") (t.order.map Json.num) ++
    optField ("labels") (t.labels.map (fun l => Json.arr (l.map Json.str))) ++
    optField ("priority") (t.priority.map Json.num) ++
    optField ("due_string") (optStrJson t.due_string) ++
    optField ("due_date") (optStrJson t.due_date) ++
    optField ("due_datetime") (optStrJson t.due_datetime) ++
    optField ("due_lang") (optStrJson t.due_lang) ++
    optField ("assignee_id") (optStrJson t.assignee_id))

/-- `JSON.stringify` of a validated `UpdateTaskInput`. -/
def encodeUpdateTask (t : UpdateTaskInput) : Json :=
  Json.obj (optField ("content") (optStrJson t.content) ++
    optField ("description") (optStrJson t.description) ++
    optField ("project_id") (optStrJson t.project_id) ++
    optField ("section_id") (optStrJson t.section_id) ++
    optField ("parent_id") (optStrJson t.parent_id) ++
    optField ("order") (t.order.map Json.num) ++
    optField ("labels") (t.labels.map (fun l => Json.arr (l.map Json.str))) ++
    optField ("priority") (t.priority.map Json.num) ++
    optField ("due_string") (optStrJson t.due_string) ++
    optField ("due_date") (optStrJson t.due_date) ++
    optField ("due_datetime") (optStrJson t.due_datetime) ++
    optField ("due_lang") (optStrJson t.due_lang) ++
    optField ("assignee_id") (optStrJson t.assignee_id))

/-- `createTask` of the first `part_002` draft: `CreateTaskSchema.parse`
runs first and its `ZodError` propagates before any request is issued;
only a valid input reaches `makeRequest`.  The second component lists
the HTTP requests the call issued. -/
def createTaskV1 (u : Upstream) (input : Json) :
    Except JsError (ParseOrRaw TaskV1) × List Request :=
  match parseCreateTask input with
  | Except.error issues => (Except.error (JsError.zod issues), [])
  | Except.ok v =>
      let req : Request := ⟨"POST", "/tasks", some (encodeCreateTask v)⟩
      ((makeRequestV1 (u req) parseTaskV1).1, [req])

/-- `updateTask` of the first `part_002` draft. -/
def updateTaskV1 (u : Upstream) (taskId : String) (input : Json) :
    Except JsError (ParseOrRaw TaskV1) × List Request :=
  match parseUpdateTask input with
  | Except.error issues => (Except.error (JsError.zod issues), [])
  | Except.ok v =>
      let req : Request := ⟨"POST", ("/tasks/") ++ taskId, some (encodeUpdateTask v)⟩
      ((makeRequestV1 (u req) parseTaskV1).1, [req])

/-- `createTask` of the primary draft: the `CreateTaskOptions` argument
is a compile-time interface only — no runtime validation runs, the
request is issued unconditionally and the response is parsed with
`TaskSchema`. -/
def createTaskMain (u : Upstream) (input : Json) :
    Except JsError TaskMain × List Request :=
  let req : Request := ⟨"POST", "/tasks", some input⟩
  (match makeRequestMain (u req) with
   | Except.error e => Except.error e
   | Except.ok body =>
       match parseTaskMain body with
       | Except.ok t => Except.ok t
       | Except.error issues => Except.error (JsError.zod issues),
   [req])

/-- The structured filter options the primary draft `getTasks` accepts. -/
structure TaskQueryOptions where
  project_id : Option String
  section_id : Option String
  label : Option String
  filter : Option String
  lang : Option String
  ids : Option (List String)
deriving Repr, DecidableEq

/-- The `filter` argument of the primary draft `getTasks`: absent, a raw
filter string, or a structured option object. -/
inductive TasksFilter where
  | absent : TasksFilter
  | raw (s : String) : TasksFilter
  | options (o : TaskQueryOptions) : TasksFilter
deriving Repr, DecidableEq

/-- One conditional `params.append(k, v)` guarded by `if (filter.k)`:
JavaScript string truthiness skips both an absent and an empty value. -/
def appendTruthy (ps : List (String × String)) (k : String)
    (v : Option String) : List (String × String) :=
  match v with
  | some s => if s.isEmpty then ps else ps ++ [(k, s)]
  | none => ps

/-- The `URLSearchParams` contents the primary draft `getTasks` builds,
append by append in source order.  The `ids` append is guarded only by
`if (filter.ids)`, which any present array — even an empty one —
passes. -/
def tasksQueryParams (f : TasksFilter) : List (String × String) :=
  match f with
  | TasksFilter.absent => []
  | TasksFilter.raw s => [(("filter"), s)]
  | TasksFilter.options o =>
      let ps : List (String × String) := []
      let ps := appendTruthy ps ("project_id") o.project_id
      let ps := appendTruthy ps ("section_id") o.section_id
      let ps := appendTruthy ps ("label") o.label
      let ps := appendTruthy ps ("filter") o.filter
      let ps := appendTruthy ps ("lang") o.lang
      match o.ids with
      | some ids => ps ++ [(("ids"), String.intercalate (",") ids)]
      | none => ps

/-- `URLSearchParams.toString`, with percent-encoding elided (no claim
exercises characters that encode). -/
def serializeParams (ps : List (String × String)) : String :=
  String.intercalate ("&") (ps.map (fun p => p.1 ++ ("=") ++ p.2))

/-- The endpoint string of the primary draft `getTasks`: the query string
is attached only when `params.toString()` is non-empty. -/
def tasksEndpoint (f : TasksFilter) : String :=
  if serializeParams (tasksQueryParams f) = "" then "/tasks"
  else ("/tasks?") ++ serializeParams (tasksQueryParams f)

/-- `getTasks` of the primary draft as issued against an upstream stub:
exactly one request, then the strict per-item validation loop.  The
second component lists the HTTP requests the call issued. -/
def getTasksMainSvc (u : Upstream) (f : TasksFilter) :
    Except JsError (List TaskMain) × List Request :=
  let req : Request := ⟨"GET", tasksEndpoint f, none⟩
  (match makeRequestMain (u req) with
   | Except.error e => Except.error e
   | Except.ok (Json.arr items) => getTasksMainList items
   | Except.ok _ => Except.error (JsError.generic ("data.map is not a function")),
   [req])

/-- `Promise.all` over two settled sub-calls: the pair when both fulfil,
otherwise a rejection carried over from a failing sub-call.  (When both
fail, `Promise.all` surfaces whichever rejected first in time; the model
surfaces the first argument's error, and no theorem below depends on
that tie-break.) -/
def promiseAllPair {α β : Type} (a : Except JsError α) (b : Except JsError β) :
    Except JsError (α × β) :=
  match a, b with
  | Except.ok x, Except.ok y => Except.ok (x, y)
  | Except.error e, _ => Except.error e
  | Except.ok _, Except.error e => Except.error e

/-- The result shape of the primary draft `healthCheck`: `connected`,
plus the two counts that are only present on success. -/
structure HealthMain where
  connected : Bool
  projectsCount : Option Int
  tasksCount : Option Int
deriving Repr, DecidableEq

/-- `healthCheck` of the primary draft, over the settled results of the
`getProjects` and `getTasks` sub-calls it awaits with `Promise.all`: the
try/catch turns any failure into `connected := false` instead of
rethrowing. -/
def healthCheckMain (pr : Except JsError (List ProjectMain))
    (tr : Except JsError (List TaskMain)) : Except JsError HealthMain :=
  match promiseAllPair pr tr with
  | Except.ok (ps, ts) =>
      Except.ok ⟨true, some ps.length, some ts.length⟩
  | Except.error _ => Except.ok ⟨false, none, none⟩

/-- `healthCheck` of the first `part_002` draft: awaits `getProjects`
only and converts any failure into the boolean `false`. -/
def healthCheckV1 (pr : Except JsError (List ProjectV1)) :
    Except JsError Bool :=
  match pr with
  | Except.ok _ => Except.ok true
  | Except.error _ => Except.ok false

/-- The result of `getAccountInfo` (first `part_002` draft). -/
structure AccountInfo where
  is_premium : Bool
  projects_count : Int
  tasks_count : Int
deriving Repr, DecidableEq

/-- `getAccountInfo` of the first `part_002` draft, over the settled
results of its two `Promise.all` sub-calls: the catch block logs and
rethrows, so a failing sub-call fails the aggregate. -/
def getAccountInfo (pr : Except JsError (List ProjectV1))
    (tr : Except JsError (List TaskV1)) : Except JsError AccountInfo :=
  match promiseAllPair pr tr with
  | Except.ok (ps, ts) => Except.ok ⟨true, ps.length, ts.length⟩
  | Except.error e => Except.error e

/-- The JSON envelope and status an Express task route responds with. -/
structure RestResponse where
  status : Int
  success : Bool
  error : String
  details : Option Issues
deriving Repr, DecidableEq

/-- The catch branch of `GET /api/tasks` in `part_004`: a `z.ZodError`
maps to 400 with its issues; every other failure — including a
`TodoistApiError` of any upstream status — maps to 500. -/
def tasksListErrorResponse : JsError → RestResponse
  | JsError.zod issues => ⟨400, false, "Invalid query parameters", some issues⟩
  | _ => ⟨500, false, "Failed to fetch tasks", none⟩

/-- The catch branch of `POST /api/tasks` in `part_004`. -/
def createTaskErrorResponse : JsError → RestResponse
  | JsError.zod issues => ⟨400, false, "Invalid task data", some issues⟩
  | _ => ⟨500, false, "Failed to create task", none⟩

/-- True when the error is the `z.ZodError` variant. -/
def JsError.isZod : JsError → Bool
  | JsError.zod _ => true
  | _ => false

/-- How an MCP tool invocation ends: the handler returns a content block
whose text is a JSON payload, or an exception escapes the handler. -/
inductive ToolOutcome where
  | reply (payload : Json) : ToolOutcome
  | thrown (e : JsError) : ToolOutcome
deriving Repr

/-- True when an exception escaped the tool handler. -/
def ToolOutcome.isThrown : ToolOutcome → Bool
  | ToolOutcome.thrown _ => true
  | ToolOutcome.reply _ => false

/-- `JSON.stringify` of a parsed `DueV1`, key order per the schema;
absent optional keys are omitted and explicit nulls are kept. -/
def encodeDueV1 (d : DueV1) : Json :=
  Json.obj ([(("date"), Json.str d.date),
    (("is_recurring"), Json.bool d.is_recurring)] ++
    (match d.datetime with
     | none => []
     | some none => [(("datetime"), Json.null)]
     | some (some s) => [(("datetime"), Json.str s)]) ++
    [(("string"), Json.str d.string)] ++
    (match d.timezone with
     | none => []
     | some none => [(("timezone"), Json.null)]
     | some (some s) => [(("timezone"), Json.str s)]) ++
    optField ("lang") (optStrJson d.lang))

/-- Map an optional string into a JSON value, `null` when absent. -/
def nullableStrJson : Option String → Json
  | some s => Json.str s
  | none => Json.null

/-- `JSON.stringify` of a parsed `TaskV1`, key order per the schema. -/
def encodeTaskV1 (t : TaskV1) : Json :=
  Json.obj ([(("id"), Json.str t.id), (("content"), Json.str t.content)] ++
    optField ("description") (optStrJson t.description) ++
    [(("is_completed"), Json.bool t.is_completed),
     (("labels"), Json.arr (t.labels.map Json.str)),
     (("order"), Json.num t.order),
     (("priority"), Json.num t.priority),
     (("project_id"), Json.str t.project_id),
     (("section_id"), nullableStrJson t.section_id),
     (("parent_id"), nullableStrJson t.parent_id),
     (("url"), Json.str t.url),
     (("comment_count"), Json.num t.comment_count),
     (("assignee_id"), nullableStrJson t.assignee_id),
     (("assigner_id"), nullableStrJson t.assigner_id),
     (("creator_id"), Json.str t.creator_id),
     (("created_at"), Json.str t.created_at),
     (("due"), match t.due with
       | some d => encodeDueV1 d
       | none => Json.null)] ++
    optField ("duration") t.duration ++
    optField ("deadline") t.deadline)

/-- The `data` payload `get_tasks` stringifies: parsed tasks re-encoded,
or the raw substituted payload as-is. -/
def encodeTaskListData : ParseOrRaw (List TaskV1) → Json
  | ParseOrRaw.parsed ts => Json.arr (ts.map encodeTaskV1)
  | ParseOrRaw.raw j => j

/-- The `count` field of the `get_tasks` success payload (`tasks.length`;
`JSON.stringify` drops the key when the value is not an array and
`.length` is therefore `undefined`). -/
def taskListCountField : ParseOrRaw (List TaskV1) → List (String × Json)
  | ParseOrRaw.parsed ts => [(("count"), Json.num ts.length)]
  | ParseOrRaw.raw (Json.arr items) => [(("count"), Json.num items.length)]
  | ParseOrRaw.raw _ => []

/-- The in-band error payload the MCP handlers stringify for a
`TodoistApiError`. -/
def mcpErrorJson (msgText : String) (status : Int) : Json :=
  Json.obj [(("success"), Json.bool false), (("error"), Json.str msgText),
    (("status"), Json.num status)]

/-- The `get_tasks` MCP tool handler applied to the settled facade
outcome: a success reply, an in-band error reply for a
`TodoistApiError`, and a rethrow — the exception escapes the handler —
for every other failure. -/
def getTasksTool (r : Except JsError (ParseOrRaw (List TaskV1))) :
    ToolOutcome :=
  match r with
  | Except.ok tasks =>
      ToolOutcome.reply (Json.obj ([(("success"), Json.bool true),
        (("data"), encodeTaskListData tasks)] ++ taskListCountField tasks))
  | Except.error (JsError.todoistApi msg status _) =>
      ToolOutcome.reply (mcpErrorJson (("Todoist API error: ") ++ msg) status)
  | Except.error e => ToolOutcome.thrown e

/-- The `content` the `create_task` success message interpolates
(`task.content`; on a raw substituted payload the lookup mirrors the
property access). -/
def taskContentOf : ParseOrRaw TaskV1 → String
  | ParseOrRaw.parsed t => t.content
  | ParseOrRaw.raw j =>
      match Json.getKey j ("content") with
      | some (Json.str s) => s
      | _ => "undefined"

/-- The `data` payload of the `create_task` success reply. -/
def encodeTaskData : ParseOrRaw TaskV1 → Json
  | ParseOrRaw.parsed t => encodeTaskV1 t
  | ParseOrRaw.raw j => j

/-- The `create_task` MCP tool handler applied to the settled facade
outcome; same error convention as `getTasksTool`. -/
def createTaskTool (r : Except JsError (ParseOrRaw TaskV1)) : ToolOutcome :=
  match r with
  | Except.ok task =>
      ToolOutcome.reply (Json.obj [(("success"), Json.bool true),
        (("message"), Json.str (("Task \"") ++ taskContentOf task ++
          ("\" created successfully"))),
        (("data"), encodeTaskData task)])
  | Except.error (JsError.todoistApi msg status _) =>
      ToolOutcome.reply (mcpErrorJson (("Failed to create task: ") ++ msg) status)
  | Except.error e => ToolOutcome.thrown e

/-- A well-formed upstream task payload: validates under both drafts. -/
def taskGoodJson : Json :=
  Json.obj [(("id"), Json.str ("7491")), (("content"), Json.str ("Buy milk")),
    (("description"), Json.str ("")), (("is_completed"), Json.bool false),
    (("labels"), Json.arr []), (("order"), Json.num 1),
    (("priority"), Json.num 3), (("project_id"), Json.str ("220474322")),
    (("section_id"), Json.null), (("parent_id"), Json.null),
    (("creator_id"), Json.str ("2671355")),
    (("created_at"), Json.str ("2026-01-02T10:00:00.000000Z")),
    (("assignee_id"), Json.null), (("assigner_id"), Json.null),
    (("comment_count"), Json.num 0),
    (("url"), Json.str ("https://todoist.com/showTask?id=7491")),
    (("due"), Json.null), (("duration"), Json.null), (("deadline"), Json.null)]

/-- The same payload with the required `content` key missing: fails
structural validation under both drafts. -/
def taskBadJson : Json :=
  Json.obj [(("id"), Json.str ("7492")),
    (("description"), Json.str ("")), (("is_completed"), Json.bool false),
    (("labels"), Json.arr []), (("order"), Json.num 2),
    (("priority"), Json.num 1), (("project_id"), Json.str ("220474322")),
    (("section_id"), Json.null), (("parent_id"), Json.null),
    (("creator_id"), Json.str ("2671355")),
    (("created_at"), Json.str ("2026-01-02T10:05:00.000000Z")),
    (("assignee_id"), Json.null), (("assigner_id"), Json.null),
    (("comment_count"), Json.num 0),
    (("url"), Json.str ("https://todoist.com/showTask?id=7492")),
    (("due"), Json.null), (("duration"), Json.null), (("deadline"), Json.null)]

/-- A non-null `due` payload with `datetime` and `timezone` absent. -/
def dueAbsentEx : Json :=
  Json.obj [(("date"), Json.str ("2026-01-06")),
    (("string"), Json.str ("Jan 6")), (("lang"), Json.str ("en")),
    (("is_recurring"), Json.bool false)]

/-- The same `due` payload with `datetime` and `timezone` explicitly
null. -/
def dueNullEx : Json :=
  Json.obj [(("date"), Json.str ("2026-01-06")),
    (("string"), Json.str ("Jan 6")), (("lang"), Json.str ("en")),
    (("is_recurring"), Json.bool false), (("datetime"), Json.null),
    (("timezone"), Json.null)]

/-- A create-task input whose `priority` is out of range. -/
def inputPriority9 : Json :=
  Json.obj [(("content"), Json.str ("Buy milk")), (("priority"), Json.num 9)]

/-- An upstream stub answering every request with an empty 200 body. -/
def stubUpstream : Upstream :=
  fun _ => FetchOutcome.response 200 ("OK") (Json.obj [])

/-- One spec-side optional string field: a present, non-empty value
contributes one query parameter. -/
def specStrField (k : String) (v : Option String) : List (String × String) :=
  match v with
  | some s => if s.isEmpty then [] else [(k, s)]
  | none => []

/-- The query parameters of the amended claim: a raw string becomes the
`filter` parameter; a structured option set contributes exactly its
present and non-empty string fields, in source order, plus the
comma-joined `ids` whenever the `ids` array is present. -/
def specTasksQueryParams (f : TasksFilter) : List (String × String) :=
  match f with
  | TasksFilter.absent => []
  | TasksFilter.raw s => [(("filter"), s)]
  | TasksFilter.options o =>
      specStrField ("project_id") o.project_id ++
      specStrField ("section_id") o.section_id ++
      specStrField ("label") o.label ++
      specStrField ("filter") o.filter ++
      specStrField ("lang") o.lang ++
      (match o.ids with
       | some ids => [(("ids"), String.intercalate (",") ids)]
       | none => [])

/-- One string field as the claim as stated reads: every present field
contributes its query parameter, empty or not. -/
def claimStrField (k : String) (v : Option String) : List (String × String) :=
  match v with
  | some s => [(k, s)]
  | none => []

/-- The query parameters the claim as stated prescribes for a structured
option set: exactly the present fields contribute. -/
def claimTasksQueryParams (f : TasksFilter) : List (String × String) :=
  match f with
  | TasksFilter.absent => []
  | TasksFilter.raw s => [(("filter"), s)]
  | TasksFilter.options o =>
      claimStrField ("project_id") o.project_id ++
      claimStrField ("section_id") o.section_id ++
      claimStrField ("label") o.label ++
      claimStrField ("filter") o.filter ++
      claimStrField ("lang") o.lang ++
      (match o.ids with
       | some ids => [(("ids"), String.intercalate (",") ids)]
       | none => [])

/-- An option set whose `project_id` is present but empty. -/
def optsEmptyProject : TaskQueryOptions :=
  ⟨some "", none, none, none, none, none⟩

/-- An option set whose `ids` array is present but empty. -/
def optsEmptyIds : TaskQueryOptions :=
  ⟨none, none, none, none, none, some []⟩

/-- The `URLSearchParams` contents the second `part_002` draft
`getTasks` builds: the same truthiness-guarded string appends, but the
`ids` append is guarded by `options.ids && options.ids.length > 0`, so
a present-but-empty `ids` array is dropped. -/
def tasksQueryParamsV2 (f : TasksFilter) : List (String × String) :=
  match f with
  | TasksFilter.absent => []
  | TasksFilter.raw s => [(("filter"), s)]
  | TasksFilter.options o =>
      let ps : List (String × String) := []
      let ps := appendTruthy ps ("project_id") o.project_id
      let ps := appendTruthy ps ("section_id") o.section_id
      let ps := appendTruthy ps ("label") o.label
      let ps := appendTruthy ps ("filter") o.filter
      let ps := appendTruthy ps ("lang") o.lang
      match o.ids with
      | some ids =>
          if 0 < ids.length then ps ++ [(("ids"), String.intercalate (",") ids)]
          else ps
      | none => ps

/-- The endpoint string of the second `part_002` draft `getTasks`: a
raw string filter is interpolated directly into `/tasks?filter=...`
(even when empty), while the object branch attaches the query string
only when it is non-empty. -/
def tasksEndpointV2 (f : TasksFilter) : String :=
  match f with
  | TasksFilter.absent => "/tasks"
  | TasksFilter.raw s => ("/tasks?filter=") ++ s
  | TasksFilter.options o =>
      if serializeParams (tasksQueryParamsV2 (TasksFilter.options o)) = ""
      then "/tasks"
      else ("/tasks?") ++ serializeParams (tasksQueryParamsV2 (TasksFilter.options o))

/-- The query parameters of the amended claim for the second `part_002`
draft: present, non-empty string fields, plus the comma-joined `ids`
only when the `ids` array is present and non-empty. -/
def specTasksQueryParamsV2 (f : TasksFilter) : List (String × String) :=
  match f with
  | TasksFilter.absent => []
  | TasksFilter.raw s => [(("filter"), s)]
  | TasksFilter.options o =>
      specStrField ("project_id") o.project_id ++
      specStrField ("section_id") o.section_id ++
      specStrField ("label") o.label ++
      specStrField ("filter") o.filter ++
      specStrField ("lang") o.lang ++
      (match o.ids with
       | some ids =>
           if ids.isEmpty then []
           else [(("ids"), String.intercalate (",") ids)]
       | none => [])

/-- The `due` sub-record of the second `part_002` draft task schema:
`datetime` and `timezone` are `z.string().nullable()` — required keys
that may be null, never absent — and there is no `lang`. -/
structure DueV2 where
  date : String
  is_recurring : Bool
  datetime : Option String
  string : String
  timezone : Option String
deriving Repr, DecidableEq

/-- Issue collection for the `V2` `due` object, in declaration order. -/
def dueV2Issues (j : Json) : Issues :=
  match j with
  | Json.obj f =>
      reqStrIssues f ("date") ++ reqBoolIssues f ("is_recurring") ++
      nullableStrIssues f ("datetime") ++ reqStrIssues f ("string") ++
      nullableStrIssues f ("timezone")
  | _ => [[]]

/-- Value extraction for the `V2` `due` object. -/
def extractDueV2 (j : Json) : DueV2 :=
  match j with
  | Json.obj f =>
      ⟨getStr f ("date"), getBool f ("is_recurring"),
       getNullableStr f ("datetime"), getStr f ("string"),
       getNullableStr f ("timezone")⟩
  | _ => ⟨"", false, none, "", none⟩

/-- A task as validated by the second `part_002` draft `TaskSchema`:
like `V1` but with the `DueV2` sub-record and without the
`duration`/`deadline` passthrough fields. -/
structure TaskV2 where
  id : String
  content : String
  description : Option String
  is_completed : Bool
  labels : List String
  order : Int
  priority : Int
  project_id : String
  section_id : Option String
  parent_id : Option String
  url : String
  comment_count : Int
  assignee_id : Option String
  assigner_id : Option String
  creator_id : String
  created_at : String
  due : Option DueV2
deriving Repr, DecidableEq

/-- Issues of the `V2` `due` field: required but nullable. -/
def dueV2FieldIssues (f : List (String × Json)) : Issues :=
  match f.lookup ("due") with
  | none => [[("due")]]
  | some Json.null => []
  | some v => (dueV2Issues v).map (fun p => ("due") :: p)

/-- Issue collection for the `V2` `TaskSchema`, in declaration order. -/
def taskV2Issues (f : List (String × Json)) : Issues :=
  reqStrIssues f ("id") ++ reqStrIssues f ("content") ++
  optStrIssues f ("description") ++ reqBoolIssues f ("is_completed") ++
  reqStrListIssues f ("labels") ++ reqNumIssues f ("order") ++
  reqPriorityIssues f ("priority") ++ reqStrIssues f ("project_id") ++
  nullableStrIssues f ("section_id") ++ nullableStrIssues f ("parent_id") ++
  reqStrIssues f ("url") ++ reqNumIssues f ("comment_count") ++
  nullableStrIssues f ("assignee_id") ++ nullableStrIssues f ("assigner_id") ++
  reqStrIssues f ("creator_id") ++ reqStrIssues f ("created_at") ++
  dueV2FieldIssues f

/-- Extract the nullable `V2` `due` value. -/
def getDueV2 (f : List (String × Json)) : Option DueV2 :=
  match f.lookup ("due") with
  | some Json.null => none
  | some v => some (extractDueV2 v)
  | none => none

/-- Value extraction for the `V2` `TaskSchema`. -/
def extractTaskV2 (f : List (String × Json)) : TaskV2 :=
  ⟨getStr f ("id"), getStr f ("content"), getOptStr f ("description"),
   getBool f ("is_completed"), getStrList f ("labels"), getNum f ("order"),
   getNum f ("priority"), getStr f ("project_id"),
   getNullableStr f ("section_id"), getNullableStr f ("parent_id"),
   getStr f ("url"), getNum f ("comment_count"),
   getNullableStr f ("assignee_id"), getNullableStr f ("assigner_id"),
   getStr f ("creator_id"), getStr f ("created_at"), getDueV2 f⟩

/-- `TaskSchema.parse` of the `V2` draft on a single payload. -/
def parseTaskV2 (j : Json) : Except Issues TaskV2 :=
  match j with
  | Json.obj f =>
      if taskV2Issues f = [] then Except.ok (extractTaskV2 f)
      else Except.error (taskV2Issues f)
  | _ => Except.error [[]]

/-- The response mapping of the `V2` draft `getTasks`:
`tasks.map(task => TaskSchema.parse(task))` with no per-item catch, so
the first `ZodError` propagates and fails the whole call. -/
def getTasksV2List : List Json → Except JsError (List TaskV2)
  | [] => Except.ok []
  | j :: rest =>
      match parseTaskV2 j with
      | Except.error issues => Except.error (JsError.zod issues)
      | Except.ok t =>
          match getTasksV2List rest with
          | Except.ok ts => Except.ok (t :: ts)
          | Except.error e => Except.error e

/-- `getTasks` of the second `part_002` draft as issued against an
upstream stub: exactly one request through its `makeRequest`, then the
strict per-item response mapping. -/
def getTasksV2Svc (u : Upstream) (f : TasksFilter) :
    Except JsError (List TaskV2) × List Request :=
  let req : Request := ⟨"GET", tasksEndpointV2 f, none⟩
  (match makeRequestV2 (u req) with
   | Except.error e => Except.error e
   | Except.ok (Json.arr items) => getTasksV2List items
   | Except.ok _ => Except.error (JsError.generic ("tasks.map is not a function")),
   [req])

/-- C10: in the primary service draft, the Task schema requires a `lang`
key inside every non-null `due` object — a `due` payload without a
`lang` key fails validation, and the payload carrying exactly `date`,
`string` and `is_recurring` fails with the single issue path `lang`. -/
theorem c10_taskSchema_due_requires_lang (fields : List (String × Json))
    (d s : String) (r : Bool) (h : fields.lookup ("lang") = none) :
    exceptErr (parseDueMain (Json.obj fields)) = true
    ∧ parseDueMain (Json.obj [(("date"), Json.str d), (("string"), Json.str s),
        (("is_recurring"), Json.bool r)]) = Except.error [[("lang")]] := by
  constructor
  · have hlang : reqStrIssues fields ("lang") = [[("lang")]] := by
      simp [reqStrIssues, h]
    have hne : dueMainIssues (Json.obj fields) ≠ [] := by
      simp [dueMainIssues, hlang]
    simp [parseDueMain, hne, exceptErr]
  · rfl

/-- Witness for C10 at a concrete `due` payload without `lang`. -/
theorem c10_witness :
    exceptErr (parseDueMain (Json.obj [(("date"), Json.str ("2026-01-06")),
      (("string"), Json.str ("Jan 6")),
      (("is_recurring"), Json.bool false)])) = true :=
  (c10_taskSchema_due_requires_lang
    [(("date"), Json.str ("2026-01-06")), (("string"), Json.str ("Jan 6")),
     (("is_recurring"), Json.bool false)]
    ("2026-01-06") ("Jan 6") false (by rfl)).1

/-- C3 counterexample: under the cited primary draft schema, the same
non-null `due` payload parses when `datetime`/`timezone` are absent but
fails validation when they are explicitly null, so the two upstream
shapes are not both accepted. -/
theorem c3_counterexample :
    exceptErr (parseDueMain dueAbsentEx) = false
    ∧ exceptErr (parseDueMain dueNullEx) = true := ⟨rfl, rfl⟩

/-- C3 amended: under the primary draft schema an absent
`due.datetime` parses to a datetime with no value while an explicit
null fails validation; under the first `part_002` draft schema both
shapes parse, but their parsed outputs remain distinguishable — the
absent key stays absent (`none`) and the null stays null
(`some none`). -/
theorem c3_due_absent_vs_null (d s l : String) (r : Bool) :
    parseDueMain (Json.obj [(("date"), Json.str d), (("string"), Json.str s),
      (("lang"), Json.str l), (("is_recurring"), Json.bool r)]) =
      Except.ok ⟨d, s, l, r, none, none⟩
    ∧ exceptErr (parseDueMain (Json.obj [(("date"), Json.str d),
        (("string"), Json.str s), (("lang"), Json.str l),
        (("is_recurring"), Json.bool r), (("datetime"), Json.null)])) = true
    ∧ parseDueV1 (Json.obj [(("date"), Json.str d), (("string"), Json.str s),
        (("lang"), Json.str l), (("is_recurring"), Json.bool r)]) =
      Except.ok ⟨d, r, none, s, none, some l⟩
    ∧ parseDueV1 (Json.obj [(("date"), Json.str d), (("string"), Json.str s),
        (("lang"), Json.str l), (("is_recurring"), Json.bool r),
        (("datetime"), Json.null)]) =
      Except.ok ⟨d, r, some none, s, none, some l⟩
    ∧ getOptNullableStr (jFields dueAbsentEx) ("datetime") = none
    ∧ getOptNullableStr (jFields dueNullEx) ("datetime") = some none :=
  ⟨rfl, rfl, rfl, rfl, rfl, rfl⟩

/-- C4 counterexample: the task-route catch branch answers 500, not 404,
when the facade failed with a `TodoistApiError` carrying upstream
status 404. -/
theorem c4_counterexample :
    (tasksListErrorResponse
      (JsError.todoistApi ("API request failed: Not Found") 404 none)).status = 500
    ∧ decide ((tasksListErrorResponse
      (JsError.todoistApi ("API request failed: Not Found") 404 none)).status = 404) =
      false := ⟨rfl, rfl⟩

/-- C4 amended: the REST task routes map a `ZodError` to 400 with the
envelope carrying its details and every other failure — including an
`ApiError` with any known upstream status — to 500 with the fixed
envelope; the upstream status is never propagated to the response
status, which is always 400 or 500. -/
theorem c4_rest_error_mapping (m : String) (s : Int) (c : Option String)
    (issues : Issues) (e : JsError) :
    tasksListErrorResponse (JsError.todoistApi m s c) =
      ⟨500, false, "Failed to fetch tasks", none⟩
    ∧ createTaskErrorResponse (JsError.todoistApi m s c) =
      ⟨500, false, "Failed to create task", none⟩
    ∧ tasksListErrorResponse (JsError.zod issues) =
      ⟨400, false, "Invalid query parameters", some issues⟩
    ∧ createTaskErrorResponse (JsError.zod issues) =
      ⟨400, false, "Invalid task data", some issues⟩
    ∧ (tasksListErrorResponse e).success = false
    ∧ ((tasksListErrorResponse e).status = 400 ∨
       (tasksListErrorResponse e).status = 500) := by
  refine ⟨rfl, rfl, rfl, rfl, ?_, ?_⟩
  · cases e <;> rfl
  · cases e with
    | zod issues => exact Or.inl rfl
    | transport m => exact Or.inr rfl
    | generic m => exact Or.inr rfl
    | todoistApi m s c => exact Or.inr rfl

/-- C5 counterexample: a facade failure that is not a `TodoistApiError`
— here the plain `Error` the strict listing path throws — escapes the
`get_tasks` tool handler instead of being encoded in-band. -/
theorem c5_counterexample :
    ToolOutcome.isThrown (getTasksTool
      (Except.error (JsError.generic ("Task validation failed")))) = true := rfl

/-- C5 amended: an MCP tool invocation whose facade operation fails with
a `TodoistApiError` completes with the in-band payload carrying
success false, the error message and the upstream status; any other
failure is rethrown and escapes the tool handler. -/
theorem c5_mcp_error_encoding (msg : String) (status : Int)
    (code : Option String) (e : JsError) (he : JsError.isApi e = false) :
    getTasksTool (Except.error (JsError.todoistApi msg status code)) =
      ToolOutcome.reply (mcpErrorJson (("Todoist API error: ") ++ msg) status)
    ∧ createTaskTool (Except.error (JsError.todoistApi msg status code)) =
      ToolOutcome.reply (mcpErrorJson (("Failed to create task: ") ++ msg) status)
    ∧ getTasksTool (Except.error e) = ToolOutcome.thrown e
    ∧ createTaskTool (Except.error e) = ToolOutcome.thrown e := by
  refine ⟨rfl, rfl, ?_, ?_⟩
  · cases e with
    | todoistApi m s c => simp [JsError.isApi] at he
    | transport m => rfl
    | generic m => rfl
    | zod i => rfl
  · cases e with
    | todoistApi m s c => simp [JsError.isApi] at he
    | transport m => rfl
    | generic m => rfl
    | zod i => rfl

/-- Witness for C5 at a concrete `TodoistApiError` and a concrete
non-API failure. -/
theorem c5_witness :
    getTasksTool (Except.error (JsError.todoistApi ("boom") 404 none)) =
      ToolOutcome.reply (mcpErrorJson (("Todoist API error: ") ++ ("boom")) 404)
    ∧ createTaskTool (Except.error (JsError.todoistApi ("boom") 404 none)) =
      ToolOutcome.reply (mcpErrorJson (("Failed to create task: ") ++ ("boom")) 404)
    ∧ getTasksTool (Except.error (JsError.generic ("boom"))) =
      ToolOutcome.thrown (JsError.generic ("boom"))
    ∧ createTaskTool (Except.error (JsError.generic ("boom"))) =
      ToolOutcome.thrown (JsError.generic ("boom")) :=
  c5_mcp_error_encoding ("boom") 404 none (JsError.generic ("boom")) rfl

/-- C7 counterexample: the primary draft `makeRequest` has no catch, so
a transport rejection propagates to the caller as the raw transport
exception, not as a `TodoistApiError`. -/
theorem c7_counterexample :
    makeRequestMain (FetchOutcome.transportError
      ("getaddrinfo ENOTFOUND api.todoist.com")) =
      Except.error (JsError.transport ("getaddrinfo ENOTFOUND api.todoist.com"))
    ∧ JsError.isApi (JsError.transport
      ("getaddrinfo ENOTFOUND api.todoist.com")) = false := ⟨rfl, rfl⟩

/-- C7 amended: only the second `part_002` draft wraps a transport-level
failure into `TodoistApiError` with message prefix `Network error:`,
status 0 and code `NETWORK_ERROR`; the primary draft propagates the raw
transport exception unchanged. -/
theorem c7_network_error_wrapping (msg : String) :
    makeRequestV2 (FetchOutcome.transportError msg) =
      Except.error (JsError.todoistApi (("Network error: ") ++ msg) 0
        (some ("NETWORK_ERROR")))
    ∧ JsError.isApi (JsError.todoistApi (("Network error: ") ++ msg) 0
        (some ("NETWORK_ERROR"))) = true
    ∧ makeRequestMain (FetchOutcome.transportError msg) =
      Except.error (JsError.transport msg)
    ∧ JsError.isApi (JsError.transport msg) = false := ⟨rfl, rfl, rfl, rfl⟩

/-- C6: both cited `healthCheck` drafts are total over every settled
behavior of their upstream sub-calls — the primary draft returns a
connectivity record and the first `part_002` draft a boolean — and a
failure in any constituent sub-call produces the disconnected result
(`connected := false`, respectively `false`) instead of propagating the
error. -/
theorem c6_healthCheck_never_throws (pr : Except JsError (List ProjectMain))
    (tr : Except JsError (List TaskMain))
    (qr : Except JsError (List ProjectV1)) :
    (∃ h, healthCheckMain pr tr = Except.ok h)
    ∧ ((exceptErr pr = true ∨ exceptErr tr = true) →
        healthCheckMain pr tr = Except.ok ⟨false, none, none⟩)
    ∧ (∃ b, healthCheckV1 qr = Except.ok b)
    ∧ (exceptErr qr = true → healthCheckV1 qr = Except.ok false) := by
  refine ⟨?_, ?_, ?_, ?_⟩
  · cases pr <;> cases tr <;> exact ⟨_, rfl⟩
  · intro h
    cases pr with
    | error e => cases tr <;> rfl
    | ok ps =>
        cases tr with
        | error e => rfl
        | ok ts => simp [exceptErr] at h
  · cases qr <;> exact ⟨_, rfl⟩
  · intro h
    cases qr with
    | error e => rfl
    | ok ps => simp [exceptErr] at h

/-- Witness for C6 with both sub-calls failing. -/
theorem c6_witness :
    healthCheckMain (Except.error (JsError.transport ("fetch failed")))
      (Except.error (JsError.transport ("fetch failed"))) =
      Except.ok ⟨false, none, none⟩
    ∧ healthCheckV1 (Except.error (JsError.transport ("fetch failed"))) =
      Except.ok false :=
  ⟨(c6_healthCheck_never_throws (Except.error (JsError.transport ("fetch failed")))
      (Except.error (JsError.transport ("fetch failed")))
      (Except.error (JsError.transport ("fetch failed")))).2.1 (Or.inl rfl),
   (c6_healthCheck_never_throws (Except.error (JsError.transport ("fetch failed")))
      (Except.error (JsError.transport ("fetch failed")))
      (Except.error (JsError.transport ("fetch failed")))).2.2.2 rfl⟩

/-- C9: `getAccountInfo` fulfils exactly when both of its `Promise.all`
sub-calls fulfil; any error it surfaces is the error of a failing
sub-call; and a fulfilled result composes both sub-call results, never
only one. -/
theorem c9_getAccountInfo_all_or_nothing (pr : Except JsError (List ProjectV1))
    (tr : Except JsError (List TaskV1)) :
    (exceptOk (getAccountInfo pr tr) = true ↔
      (exceptOk pr = true ∧ exceptOk tr = true))
    ∧ (∀ e, getAccountInfo pr tr = Except.error e →
        pr = Except.error e ∨ tr = Except.error e)
    ∧ (∀ a, getAccountInfo pr tr = Except.ok a →
        (∃ ps, pr = Except.ok ps ∧ a.projects_count = ps.length)
        ∧ (∃ ts, tr = Except.ok ts ∧ a.tasks_count = ts.length)) := by
  cases pr with
  | error e =>
      cases tr <;>
        simp [getAccountInfo, promiseAllPair, exceptOk]
  | ok ps =>
      cases tr with
      | error e => simp [getAccountInfo, promiseAllPair, exceptOk]
      | ok ts =>
          refine ⟨by simp [getAccountInfo, promiseAllPair, exceptOk], ?_, ?_⟩
          · intro e h
            simp [getAccountInfo, promiseAllPair] at h
          · intro a h
            simp only [getAccountInfo, promiseAllPair, Except.ok.injEq] at h
            subst h
            exact ⟨⟨ps, rfl, rfl⟩, ⟨ts, rfl, rfl⟩⟩

/-- Witness for C9 with a failing task-listing sub-call. -/
theorem c9_witness :
    exceptOk (getAccountInfo (Except.ok ([] : List ProjectV1))
      (Except.error (JsError.generic ("boom")))) = true ↔
    (exceptOk (Except.ok ([] : List ProjectV1) :
       Except JsError (List ProjectV1)) = true ∧
     exceptOk (Except.error (JsError.generic ("boom")) :
       Except JsError (List TaskV1)) = true) :=
  (c9_getAccountInfo_all_or_nothing (Except.ok ([] : List ProjectV1))
    (Except.error (JsError.generic ("boom")))).1

/-- C2 counterexample: the primary draft `createTask` performs no input
validation at all — an input whose `priority` is 9 (outside 1–4) is
sent upstream, issuing one HTTP request. -/
theorem c2_counterexample :
    (createTaskMain stubUpstream inputPriority9).2.length = 1
    ∧ Json.getKey inputPriority9 ("priority") = some (Json.num 9)
    ∧ optPriorityIssues (jFields inputPriority9) ("priority") =
      [[("priority")]] := ⟨rfl, rfl, rfl⟩

/-- C2 amended: in the `part_002` drafts, `createTask` and `updateTask`
run `CreateTaskSchema`/`UpdateTaskSchema` first, so an input whose
`priority` is present and outside the range 1–4 fails with a validation
error whose issues reference the `priority` field and no HTTP request
is issued; the primary draft `createTask` has no runtime input
validation and issues the request regardless. -/
theorem c2_priority_validated_before_network (f : List (String × Json))
    (p : Int) (tid : String) (u : Upstream)
    (hp : f.lookup ("priority") = some (Json.num p))
    (hout : p < 1 ∨ 4 < p) :
    (∃ issues, parseCreateTask (Json.obj f) = Except.error issues ∧
      [("priority")] ∈ issues)
    ∧ (createTaskV1 u (Json.obj f)).2 = []
    ∧ (∃ issues, parseUpdateTask (Json.obj f) = Except.error issues ∧
      [("priority")] ∈ issues)
    ∧ (updateTaskV1 u tid (Json.obj f)).2 = [] := by
  have hpri : optPriorityIssues f ("priority") = [[("priority")]] := by
    simp only [optPriorityIssues, hp]
    rw [if_neg]
    omega
  have hmemC : [("priority")] ∈ createTaskIssues f := by
    simp [createTaskIssues, hpri, List.mem_append]
  have hmemU : [("priority")] ∈ updateTaskIssues f := by
    simp [updateTaskIssues, hpri, List.mem_append]
  have hneC : createTaskIssues f ≠ [] := by
    intro h0
    rw [h0] at hmemC
    simp at hmemC
  have hneU : updateTaskIssues f ≠ [] := by
    intro h0
    rw [h0] at hmemU
    simp at hmemU
  have hparseC : parseCreateTask (Json.obj f) =
      Except.error (createTaskIssues f) := by
    simp [parseCreateTask, hneC]
  have hparseU : parseUpdateTask (Json.obj f) =
      Except.error (updateTaskIssues f) := by
    simp [parseUpdateTask, hneU]
  refine ⟨⟨createTaskIssues f, hparseC, hmemC⟩, ?_,
    ⟨updateTaskIssues f, hparseU, hmemU⟩, ?_⟩
  · simp [createTaskV1, hparseC]
  · simp [updateTaskV1, hparseU]

/-- Witness for C2: the concrete priority-9 input fails validation and
issues no request through the `part_002` `createTask`. -/
theorem c2_witness :
    (createTaskV1 stubUpstream (Json.obj [(("content"), Json.str ("Buy milk")),
      (("priority"), Json.num 9)])).2 = [] :=
  (c2_priority_validated_before_network
    [(("content"), Json.str ("Buy milk")), (("priority"), Json.num 9)]
    9 ("1") stubUpstream rfl (Or.inr (by omega))).2.1

theorem appendTruthy_eq_specStrField (ps : List (String × String))
    (k : String) (v : Option String) :
    appendTruthy ps k v = ps ++ specStrField k v := by
  cases v with
  | none => simp [appendTruthy, specStrField]
  | some s =>
      by_cases hs : s.isEmpty <;> simp [appendTruthy, specStrField, hs]

/-- C8 counterexample: the primary draft `getTasks` drops a
present-but-empty `project_id` from the query because of JavaScript
string truthiness, and the second `part_002` draft additionally drops a
present-but-empty `ids` array via its `ids.length > 0` guard, so the
built parameters differ from the present-fields reading of the claim in
both cited drafts. -/
theorem c8_counterexample :
    tasksQueryParams (TasksFilter.options optsEmptyProject) = []
    ∧ claimTasksQueryParams (TasksFilter.options optsEmptyProject) =
      [(("project_id"), "")]
    ∧ (optsEmptyProject.project_id).isSome = true
    ∧ decide (tasksQueryParams (TasksFilter.options optsEmptyProject) =
        claimTasksQueryParams (TasksFilter.options optsEmptyProject)) =
      false
    ∧ tasksQueryParamsV2 (TasksFilter.options optsEmptyIds) = []
    ∧ claimTasksQueryParams (TasksFilter.options optsEmptyIds) =
      [(("ids"), "")]
    ∧ (optsEmptyIds.ids).isSome = true
    ∧ decide (tasksQueryParamsV2 (TasksFilter.options optsEmptyIds) =
        claimTasksQueryParams (TasksFilter.options optsEmptyIds)) =
      false := ⟨rfl, rfl, rfl, rfl, rfl, rfl, rfl, rfl⟩

/-- C8 amended: both cited `getTasks` drafts issue exactly one upstream
request per invocation; a raw string argument becomes the `filter`
query parameter; a structured option set contributes exactly its
present and non-empty fields among project id, section id, label,
filter and lang; an absent filter yields the bare `/tasks` endpoint.
The drafts differ only on `ids`: the primary draft serializes the
comma-joined `ids` whenever the array is present (an empty array yields
an empty `ids` parameter), while the second `part_002` draft serializes
it only when the array is present and non-empty. -/
theorem c8_query_serialization (f : TasksFilter) (s : String) (u : Upstream) :
    tasksQueryParams f = specTasksQueryParams f
    ∧ tasksQueryParamsV2 f = specTasksQueryParamsV2 f
    ∧ (getTasksMainSvc u f).2 = [Request.mk ("GET") (tasksEndpoint f) none]
    ∧ (getTasksV2Svc u f).2 = [Request.mk ("GET") (tasksEndpointV2 f) none]
    ∧ tasksQueryParams (TasksFilter.raw s) = [(("filter"), s)]
    ∧ tasksQueryParamsV2 (TasksFilter.raw s) = [(("filter"), s)]
    ∧ tasksEndpointV2 (TasksFilter.raw s) = ("/tasks?filter=") ++ s
    ∧ tasksEndpoint TasksFilter.absent = ("/tasks")
    ∧ tasksEndpointV2 TasksFilter.absent = ("/tasks") := by
  refine ⟨?_, ?_, rfl, rfl, rfl, rfl, rfl, rfl, rfl⟩
  · cases f with
    | absent => rfl
    | raw s2 => rfl
    | options o =>
        obtain ⟨vp, vs, vl, vf, vg, vi⟩ := o
        simp only [tasksQueryParams, specTasksQueryParams,
          appendTruthy_eq_specStrField, List.nil_append, List.append_assoc]
        cases vi <;> simp
  · cases f with
    | absent => rfl
    | raw s2 => rfl
    | options o =>
        obtain ⟨vp, vs, vl, vf, vg, vi⟩ := o
        simp only [tasksQueryParamsV2, specTasksQueryParamsV2,
          appendTruthy_eq_specStrField, List.nil_append, List.append_assoc]
        cases vi with
        | none => simp
        | some ids => cases ids <;> simp

/-- Membership of a failing item makes the strict per-item listing loop
of the primary draft fail as a whole. -/
theorem getTasksMainList_err_of_mem (items : List Json) (j : Json)
    (hmem : j ∈ items) (hbad : exceptErr (parseTaskMain j) = true) :
    exceptErr (getTasksMainList items) = true := by
  induction items with
  | nil => simp at hmem
  | cons a rest ih =>
      rcases List.mem_cons.mp hmem with h | h
      · subst h
        cases hp : parseTaskMain j with
        | error e => simp [getTasksMainList, hp, exceptErr]
        | ok t => simp [exceptErr, hp] at hbad
      · cases hp : parseTaskMain a with
        | error e => simp [getTasksMainList, hp, exceptErr]
        | ok t =>
            have htail := ih h
            cases hq : getTasksMainList rest with
            | error e => simp [getTasksMainList, hp, hq, exceptErr]
            | ok ts => simp [exceptErr, hq] at htail

/-- C1 counterexample: for the two-item listing response made of one
well-formed task and one task missing `content`, the cited primary
draft `getTasks` fails the whole call instead of returning two items. -/
theorem c1_counterexample :
    exceptErr (parseTaskMain taskGoodJson) = false
    ∧ exceptErr (parseTaskMain taskBadJson) = true
    ∧ exceptErr (getTasksMainList [taskGoodJson, taskBadJson]) = true :=
  ⟨rfl, rfl, rfl⟩

/-- C1 amended: when a task-listing response contains an item that fails
structural validation, the schema-lenient `part_002` draft does not
fail — it substitutes the entire raw response array, preserving length
and every raw item (validating items included), and logs one warning
per response; the primary draft instead fails the whole listing call. -/
theorem c1_lenient_listing (items : List Json) (j : Json)
    (harr : exceptErr (parseTaskArrayV1 (Json.arr items)) = true)
    (hmem : j ∈ items) (hbad : exceptErr (parseTaskMain j) = true) :
    getTasksV1 (FetchOutcome.response 200 ("OK") (Json.arr items)) =
      (Except.ok (ParseOrRaw.raw (Json.arr items)), 1)
    ∧ exceptErr (getTasksMainList items) = true := by
  constructor
  · have hne : taskArrayV1Issues items ≠ [] := by
      intro h0
      simp [parseTaskArrayV1, h0, exceptErr] at harr
    have hparse : parseTaskArrayV1 (Json.arr items) =
        Except.error (taskArrayV1Issues items) := by
      simp [parseTaskArrayV1, hne]
    simp only [getTasksV1, makeRequestV1, hparse]
    norm_num
  · exact getTasksMainList_err_of_mem items j hmem hbad

/-- Witness for C1 at the concrete two-item response. -/
theorem c1_witness :
    getTasksV1 (FetchOutcome.response 200 ("OK")
      (Json.arr [taskGoodJson, taskBadJson])) =
      (Except.ok (ParseOrRaw.raw (Json.arr [taskGoodJson, taskBadJson])), 1)
    ∧ exceptErr (getTasksMainList [taskGoodJson, taskBadJson]) = true :=
  c1_lenient_listing [taskGoodJson, taskBadJson] taskBadJson (by rfl)
    (List.Mem.tail _ (List.Mem.head _)) (by rfl)

end Todoist
